import Mathlib

/-!
Shallow embedding of the evio control-plane controllers
(`controllers/geneve_tunnel.py`, `controllers/link_manager.py`,
`controllers/graph_builder.py`, `controllers/signal.py`,
`broker/timed_transactions.py`).

Python dictionaries are modelled as association lists with unique keys
(`Dict`), mutation as state passing, and side effects (kernel interface
operations, published events, completed CBTs, issued remote actions) as
accumulated lists in an outcome record.  A Python exception escaping a
handler is modelled by an `Option PyErr` field of the outcome.
-/

namespace Evio

/-- Modelled from the spec: the tunnel state enumeration of
`controllers/tunnel.py` (the module itself is not in the sources; the spec
lists states Authorized, Creating, Querying, Online, Offline, and the
kernel-flavour manager additionally references `TNL_OFFLINE`). -/
inductive TUNNEL_STATES where
  | AUTHORIZED
  | CREATING
  | QUERYING
  | ONLINE
  | OFFLINE
  | TNL_OFFLINE
deriving DecidableEq, Repr

/-- Modelled from the spec: the tunnel event enumeration of
`controllers/tunnel.py` (events published on the tunnel-event bus). -/
inductive TUNNEL_EVENTS where
  | Authorized
  | AuthExpired
  | Connected
  | Disconnected
  | Removed
deriving DecidableEq, Repr

/-- A Python exception escaping a handler. -/
inductive PyErr where
  | keyError (key : String)
  | runtimeWarning
  | typeError
  | attributeError
deriving DecidableEq, Repr

/-- A Python `dict` keyed by strings: an association list with unique keys
(well-formedness is carried as a separate hypothesis where needed). -/
abbrev Dict (α : Type) := List (String × α)

/-- Python `m[k]` / `m.get(k)`: the value at key `k`, if present. -/
def Dict.get? {α : Type} : Dict α → String → Option α
  | [], _ => none
  | (k0, v) :: rest, k => if k0 = k then some v else Dict.get? rest k

/-- Python `k in m`. -/
def Dict.hasKey {α : Type} (m : Dict α) (k : String) : Bool :=
  (Dict.get? m k).isSome

/-- Python `m[k] = v`: replace in place if the key exists, else append (Python
dicts keep insertion order and update in place). -/
def Dict.set {α : Type} : Dict α → String → α → Dict α
  | [], k, v => [(k, v)]
  | (k0, v0) :: rest, k, v =>
    if k0 = k then (k0, v) :: rest else (k0, v0) :: Dict.set rest k v

/-- Python `m.pop(k, None)` / `del m[k]`: drop the entry at key `k`. -/
def Dict.pop {α : Type} : Dict α → String → Dict α
  | [], _ => []
  | (k0, v0) :: rest, k => if k0 = k then rest else (k0, v0) :: Dict.pop rest k

/-- Python `m.values()`. -/
def Dict.values {α : Type} (m : Dict α) : List α := m.map Prod.snd

/-- Python `m.keys()`. -/
def Dict.keys {α : Type} (m : Dict α) : List String := m.map Prod.fst

/-- Key uniqueness, the invariant Python dicts provide for free. -/
def Dict.Uniq {α : Type} (m : Dict α) : Prop := m.keys.Nodup

instance {α : Type} (m : Dict α) : Decidable (Dict.Uniq m) :=
  inferInstanceAs (Decidable (Dict.keys m).Nodup)

theorem Dict.get?_set_self {α : Type} (m : Dict α) (k : String) (v : α) :
    Dict.get? (Dict.set m k v) k = some v := by
  induction m with
  | nil => simp [Dict.set, Dict.get?]
  | cons kv rest ih =>
    obtain ⟨k0, v0⟩ := kv
    by_cases h : k0 = k <;> simp [Dict.set, Dict.get?, h, ih]

theorem Dict.get?_set_ne {α : Type} (m : Dict α) (k j : String) (v : α)
    (h : j ≠ k) : Dict.get? (Dict.set m k v) j = Dict.get? m j := by
  induction m with
  | nil => simp [Dict.set, Dict.get?, Ne.symm h]
  | cons kv rest ih =>
    obtain ⟨k0, v0⟩ := kv
    by_cases h0 : k0 = k
    · subst h0
      simp [Dict.set, Dict.get?, Ne.symm h]
    · simp only [Dict.set, if_neg h0, Dict.get?, ih]

theorem Dict.get?_pop_ne {α : Type} (m : Dict α) (k j : String)
    (h : j ≠ k) : Dict.get? (Dict.pop m k) j = Dict.get? m j := by
  induction m with
  | nil => simp [Dict.pop]
  | cons kv rest ih =>
    obtain ⟨k0, v0⟩ := kv
    by_cases h0 : k0 = k
    · subst h0
      simp [Dict.pop, Dict.get?, Ne.symm h]
    · simp only [Dict.pop, if_neg h0, Dict.get?, ih]

theorem Dict.keys_pop_sublist {α : Type} (m : Dict α) (k : String) :
    (Dict.pop m k).keys.Sublist m.keys := by
  induction m with
  | nil => simp [Dict.pop, Dict.keys]
  | cons kv rest ih =>
    obtain ⟨k0, v0⟩ := kv
    by_cases h0 : k0 = k
    · simp only [Dict.pop, if_pos h0, Dict.keys, List.map_cons]
      exact List.sublist_cons_self _ _
    · simp only [Dict.pop, if_neg h0, Dict.keys, List.map_cons]
      exact List.Sublist.cons₂ k0 ih

theorem Dict.uniq_pop {α : Type} (m : Dict α) (k : String)
    (h : Dict.Uniq m) : Dict.Uniq (Dict.pop m k) :=
  (Dict.keys_pop_sublist m k).nodup h

theorem Dict.get?_key_not_mem {α : Type} (m : Dict α) (k : String)
    (h : k ∉ m.keys) : Dict.get? m k = none := by
  induction m with
  | nil => rfl
  | cons kv rest ih =>
    obtain ⟨k0, v0⟩ := kv
    simp only [Dict.keys, List.map_cons, List.mem_cons, not_or] at h
    simp only [Dict.get?, if_neg (fun he : k0 = k => h.1 he.symm)]
    exact ih h.2

theorem Dict.get?_pop_self {α : Type} (m : Dict α) (k : String)
    (h : Dict.Uniq m) : Dict.get? (Dict.pop m k) k = none := by
  induction m with
  | nil => rfl
  | cons kv rest ih =>
    obtain ⟨k0, v0⟩ := kv
    simp only [Dict.Uniq, Dict.keys, List.map_cons, List.nodup_cons] at h
    by_cases h0 : k0 = k
    · subst h0
      simp only [Dict.pop, if_pos rfl]
      exact Dict.get?_key_not_mem rest k0 h.1
    · simp only [Dict.pop, if_neg h0, Dict.get?, if_neg h0]
      exact ih h.2

theorem Dict.get?_pop_none {α : Type} (m : Dict α) (k j : String)
    (h : Dict.get? m j = none) : Dict.get? (Dict.pop m k) j = none := by
  induction m with
  | nil => simp [Dict.pop, Dict.get?]
  | cons kv rest ih =>
    obtain ⟨k0, v0⟩ := kv
    by_cases h0 : k0 = j
    · simp [Dict.get?, h0] at h
    · simp only [Dict.get?, if_neg h0] at h
      by_cases h1 : k0 = k
      · simpa [Dict.pop, h1] using h
      · simp only [Dict.pop, if_neg h1, Dict.get?, if_neg h0]
        exact ih h

theorem Dict.get?_mem {α : Type} (m : Dict α) (k : String) (v : α)
    (h : Dict.get? m k = some v) : (k, v) ∈ m := by
  induction m with
  | nil => simp [Dict.get?] at h
  | cons kv rest ih =>
    obtain ⟨k0, v0⟩ := kv
    by_cases h0 : k0 = k
    · subst h0
      simp only [Dict.get?, if_pos rfl] at h
      cases h
      exact List.mem_cons_self _ _
    · simp only [Dict.get?, if_neg h0] at h
      exact List.mem_cons_of_mem _ (ih h)

theorem Dict.mem_get? {α : Type} (m : Dict α) (k : String) (v : α)
    (hu : Dict.Uniq m) (h : (k, v) ∈ m) : Dict.get? m k = some v := by
  induction m with
  | nil => simp at h
  | cons kv rest ih =>
    obtain ⟨k0, v0⟩ := kv
    simp only [Dict.Uniq, Dict.keys, List.map_cons, List.nodup_cons] at hu
    rcases List.mem_cons.mp h with h1 | h1
    · have hk : k = k0 := congrArg Prod.fst h1
      have hv : v = v0 := congrArg Prod.snd h1
      subst hk
      simp [Dict.get?, hv]
    · have hkmem : k ∈ Dict.keys rest := List.mem_map.mpr ⟨(k, v), h1, rfl⟩
      have hk : k0 ≠ k := fun he => hu.1 (he ▸ hkmem)
      simp only [Dict.get?, if_neg hk]
      exact ih hu.2 h1

/-- Modelled from the spec: the `Tunnel` record of `controllers/tunnel.py`
(not in the sources).  Constructed in `geneve_tunnel.py` as
`Tunnel(tnlid, olid, peer_id, state, tap_name, DATAPLANE_TYPES.Geneve)`;
`mac` and `peer_mac` default to empty/absent. -/
structure Tunnel where
  tnlid : String
  overlay_id : String
  peer_id : String
  state : TUNNEL_STATES
  tap_name : String
  mac : String := ""
  peer_mac : Option String := none
deriving DecidableEq, Repr

/-- A published tunnel-lifecycle event (the `param` dictionaries posted via
`_gnv_updates_publisher.post_update` / `_link_updates_publisher.post_update`). -/
structure TunnelEvent where
  update_type : TUNNEL_EVENTS
  overlay_id : String
  peer_id : String
  tnlid : String
  tap_name : Option String := none
deriving DecidableEq, Repr

/-- Per-overlay configuration relevant to tap-name generation:
`self.config["Overlays"][olid].get("TapNamePrefix", ...)`.  The overlay
table itself is modelled as total (handlers run for configured overlays). -/
structure GnvConfig where
  tapNamePrefix : String → Option String

/-- Constant `GeneveTunnel.TAPNAME_MAXLEN`. -/
def TAPNAME_MAXLEN : Nat := 15

/-- Python string slicing `s[:i]` for an `int` bound `i`: a nonnegative
bound keeps the first `i` characters; a negative bound drops the last
`-i` characters. -/
def pySliceTo (s : String) (i : Int) : String :=
  if 0 ≤ i then s.take i.toNat else s.take (s.length - (-i).toNat)

/-- Source `GeneveTunnel.get_tap_name(self, peer_id, olid)` (geneve_tunnel.py
lines 447-451).  Note the parameter order: peer first, overlay second. -/
def get_tap_name (cfg : GnvConfig) (peer_id olid : String) : String :=
  let tapNamePfx := (cfg.tapNamePrefix olid).getD (olid.take 5)
  let end_i : Int := (TAPNAME_MAXLEN : Int) - (tapNamePfx.length : Int)
  tapNamePfx ++ pySliceTo peer_id end_i

/-- Effects accumulated while a GeneveTunnel request handler runs.
`responses` records each `cbt.set_response`+`complete_cbt` pair as its
status; `raised` is a Python exception escaping the handler, if any. -/
structure GnvOutcome where
  tunnels : Dict Tunnel
  responses : List Bool := []
  events : List TunnelEvent := []
  taps_removed : List String := []
  taps_created : List String := []
  remote_acts : List String := []
  timed_regs : List String := []
  raised : Option PyErr := none
deriving Repr

/-- Source `GeneveTunnel._is_tunnel_authorized` (lines 130-134). -/
def _is_tunnel_authorized (tunnels : Dict Tunnel) (tunnel_id : String) : Bool :=
  match Dict.get? tunnels tunnel_id with
  | some tnl => tnl.state == TUNNEL_STATES.AUTHORIZED
  | none => false

/-- Source `GeneveTunnel.is_tnl_completed` (lines 453-454). -/
def is_tnl_completed (tnl : Tunnel) : Bool :=
  tnl.state == TUNNEL_STATES.ONLINE

/-- Source `GeneveTunnel.req_handler_auth_tunnel` (lines 136-179): reject a
duplicate id, otherwise record an `AUTHORIZED` tunnel, register a timed
transaction, respond success and publish an `Authorized` event. -/
def req_handler_auth_tunnel (cfg : GnvConfig) (tunnels : Dict Tunnel)
    (olid peer_id tnlid : String) : GnvOutcome :=
  if Dict.hasKey tunnels tnlid then
    { tunnels := tunnels, responses := [false] }
  else
    let tap_name := get_tap_name cfg peer_id olid
    let tnl : Tunnel :=
      { tnlid := tnlid, overlay_id := olid, peer_id := peer_id,
        state := TUNNEL_STATES.AUTHORIZED, tap_name := tap_name }
    { tunnels := Dict.set tunnels tnlid tnl,
      responses := [true],
      events := [{ update_type := TUNNEL_EVENTS.Authorized, overlay_id := olid,
                   peer_id := peer_id, tnlid := tnlid }],
      timed_regs := [tnlid] }

/-- Source `GeneveTunnel.req_handler_create_tunnel` (lines 181-218).  Faithful to
the source: the duplicate-id branch completes the CBT with status `False`
but does NOT return, so the handler falls through, deletes tap remnants,
overwrites the map entry with a fresh `CREATING` tunnel and submits the
`GNV_EXCHANGE_ENDPT` remote action. -/
def req_handler_create_tunnel (cfg : GnvConfig) (tunnels : Dict Tunnel)
    (tap_exists : String → Bool) (olid tnlid peer_id : String) : GnvOutcome :=
  let tap_name := get_tap_name cfg peer_id olid
  let dup_responses : List Bool := if Dict.hasKey tunnels tnlid then [false] else []
  let taps_removed : List String := if tap_exists tap_name then [tap_name] else []
  let tnl : Tunnel :=
    { tnlid := tnlid, overlay_id := olid, peer_id := peer_id,
      state := TUNNEL_STATES.CREATING, tap_name := tap_name }
  { tunnels := Dict.set tunnels tnlid tnl,
    responses := dup_responses,
    taps_removed := taps_removed,
    remote_acts := ["GNV_EXCHANGE_ENDPT"] }

/-- The `except` block of `req_handler_exchnge_endpt` (lines 253-259):
`self._tunnels[tnlid].state = TUNNEL_STATES.OFFLINE` raises `KeyError`
when `tnlid` is not in the map (the subsequent `pop` would have been
safe); otherwise the entry is marked offline, popped, and the CBT is
completed with status `False`. -/
def gnv_endpt_except (tunnels : Dict Tunnel) (tnlid : String)
    (taps_removed : List String) : GnvOutcome :=
  match Dict.get? tunnels tnlid with
  | none =>
      { tunnels := tunnels, taps_removed := taps_removed,
        raised := some (PyErr.keyError tnlid) }
  | some tnl =>
      let tunnels1 := Dict.set tunnels tnlid { tnl with state := TUNNEL_STATES.OFFLINE }
      { tunnels := Dict.pop tunnels1 tnlid,
        taps_removed := taps_removed,
        responses := [false] }

/-- Source `GeneveTunnel.req_handler_exchnge_endpt` (lines 220-259).  The `try`
body looks up the tap name (KeyError when absent), requires authorization
(else RuntimeWarning), replaces a stale tap, creates the kernel interface
(`create_raises` models an `IPRoute` failure), marks the tunnel
`CREATING` and completes with success; any exception enters
`gnv_endpt_except`. -/
def req_handler_exchnge_endpt (tunnels : Dict Tunnel)
    (tap_exists : String → Bool) (create_raises : Bool)
    (tnlid : String) : GnvOutcome :=
  match Dict.get? tunnels tnlid with
  | none => gnv_endpt_except tunnels tnlid []
  | some tnl =>
      let tap_name := tnl.tap_name
      if ¬ _is_tunnel_authorized tunnels tnlid then
        gnv_endpt_except tunnels tnlid []
      else
        let taps_removed : List String :=
          if tap_exists tap_name then [tap_name] else []
        if create_raises then
          gnv_endpt_except tunnels tnlid taps_removed
        else
          { tunnels := Dict.set tunnels tnlid { tnl with state := TUNNEL_STATES.CREATING },
            responses := [true],
            taps_removed := taps_removed,
            taps_created := [tap_name] }

/-- Source `GeneveTunnel.req_handler_update_peer_mac` (lines 261-291). -/
def req_handler_update_peer_mac (tunnels : Dict Tunnel)
    (olid tnlid peer_id mac : String) : GnvOutcome :=
  match Dict.get? tunnels tnlid with
  | none => { tunnels := tunnels, responses := [false] }
  | some tnl =>
      if tnl.state == TUNNEL_STATES.OFFLINE then
        { tunnels := tunnels, responses := [false] }
      else if tnl.state == TUNNEL_STATES.CREATING then
        let tnl1 := { tnl with peer_mac := some mac, state := TUNNEL_STATES.ONLINE }
        { tunnels := Dict.set tunnels tnlid tnl1,
          responses := [true],
          events := [{ update_type := TUNNEL_EVENTS.Connected, overlay_id := olid,
                       peer_id := peer_id, tnlid := tnlid,
                       tap_name := some tnl1.tap_name }] }
      else
        { tunnels := tunnels, responses := [false] }

/-- Source `GeneveTunnel.req_handler_remove_tunnel` (lines 318-350): mark the
entry offline, destroy the interface, pop the entry and respond success;
when the id is absent, derive the tap name — note the swapped argument
order `get_tap_name(olid, peer_id)` of line 339 — and destroy that
interface.  Either way a `Removed` event is posted after completion. -/
def req_handler_remove_tunnel (cfg : GnvConfig) (tunnels : Dict Tunnel)
    (olid tnlid peer_id : String) : GnvOutcome :=
  match Dict.get? tunnels tnlid with
  | some tnl =>
      let tap_name := tnl.tap_name
      let tunnels1 := Dict.set tunnels tnlid { tnl with state := TUNNEL_STATES.OFFLINE }
      { tunnels := Dict.pop tunnels1 tnlid,
        responses := [true],
        taps_removed := [tap_name],
        events := [{ update_type := TUNNEL_EVENTS.Removed, overlay_id := olid,
                     peer_id := peer_id, tnlid := tnlid, tap_name := some tap_name }] }
  | none =>
      let tap_name := get_tap_name cfg olid peer_id
      { tunnels := tunnels,
        responses := [true],
        taps_removed := [tap_name],
        events := [{ update_type := TUNNEL_EVENTS.Removed, overlay_id := olid,
                     peer_id := peer_id, tnlid := tnlid, tap_name := some tap_name }] }

/-- Source `GeneveTunnel._deauth_tnls` (lines 72-75): pop each listed tunnel from
the map; nothing is published. -/
def _deauth_tnls : Dict Tunnel → List Tunnel → Dict Tunnel
  | tunnels, [] => tunnels
  | tunnels, tnl :: rest => _deauth_tnls (Dict.pop tunnels tnl.tnlid) rest

/-- The `Removed` event dictionary posted by `_rollback_tnls`
(lines 82-89). -/
def removed_event (tnl : Tunnel) : TunnelEvent :=
  { update_type := TUNNEL_EVENTS.Removed, overlay_id := tnl.overlay_id,
    peer_id := tnl.peer_id, tnlid := tnl.tnlid,
    tap_name := some tnl.tap_name }

/-- Source `GeneveTunnel._rollback_tnls` (lines 77-89): pop each listed tunnel,
destroy its kernel interface, and post one `Removed` event per tunnel.
Returns (map, removed taps, posted events). -/
def _rollback_tnls : Dict Tunnel → List Tunnel →
    Dict Tunnel × List String × List TunnelEvent
  | tunnels, [] => (tunnels, [], [])
  | tunnels, tnl :: rest =>
      let out := _rollback_tnls (Dict.pop tunnels tnl.tnlid) rest
      (out.1, tnl.tap_name :: out.2.1, removed_event tnl :: out.2.2)

/-- Source `GeneveTunnel.on_tnl_timeout` (lines 456-465): sweep the whole tunnel
table, de-authorise every `AUTHORIZED` tunnel and roll back every
`CREATING` / `TNL_OFFLINE` tunnel. -/
def on_tnl_timeout (tunnels : Dict Tunnel) :
    Dict Tunnel × List String × List TunnelEvent :=
  let deauth := (Dict.values tunnels).filter
    (fun t => t.state == TUNNEL_STATES.AUTHORIZED)
  let rlbk := (Dict.values tunnels).filter
    (fun t => t.state == TUNNEL_STATES.CREATING || t.state == TUNNEL_STATES.TNL_OFFLINE)
  _rollback_tnls (_deauth_tnls tunnels deauth) rlbk

/-- Source `TimedTransactions._get_expired` specialised to the geneve timed
transaction (timed_transactions.py lines 36-39 with
`is_tnl_completed` / `on_tnl_timeout` from geneve_tunnel.py): the expiry
callback fires only when the expiring tunnel has not completed. -/
def gnv_on_timed_expiry (tunnels : Dict Tunnel) (tnl : Tunnel) :
    Dict Tunnel × List String × List TunnelEvent :=
  if ¬ is_tnl_completed tnl then on_tnl_timeout tunnels
  else (tunnels, [], [])

/-- The `Link` class of `link_manager.py` (lines 34-52): link id, the
creation-state byte (exposed through a trivial property), the
`status_retry` counter and the stats payload (kept opaque). -/
structure Link where
  lnkid : String
  creation_state : Nat
  status_retry : Nat
  stats : String := ""
deriving DecidableEq, Repr

/-- The NAT-traversing `Tunnel` class defined in `link_manager.py`
(lines 55-87): identifying attributes, the `tunnel_state` property
(backed by `_tunnel_state`), an optional embedded `link`, and the
remaining constructor fields (`tap_name`, `mac`, `fpr`, `peer_mac` start
as `None` and are filled in during the handshake; `dataplane` and
`dp_instance_id` come from the constructor).  `tap_name` is kept as a
plain string since every embedded handler reads it after assignment. -/
structure LmTunnel where
  tnlid : String
  overlay_id : String
  peer_id : String
  tap_name : String
  tunnel_state : TUNNEL_STATES
  link : Option Link := none
  mac : Option String := none
  fpr : Option String := none
  peer_mac : Option String := none
  dataplane : String := ""
  dp_instance_id : Nat := 0
deriving DecidableEq, Repr

/-- One per-link entry of a `TCI_QUERY_LINK_STATS` response:
`resp_data[tnlid][lnkid] = `{"Status": ..., "Stats": ...}`. -/
structure LinkStatsEntry where
  status : String
  stats : String := ""
deriving DecidableEq, Repr

/-- Effects accumulated while a LinkManager handler runs.  `cbts` records
`register_cbt` calls by action name. -/
structure LmOutcome where
  tunnels : Dict LmTunnel
  events : List TunnelEvent := []
  cbts : List String := []
  raised : Option PyErr := none
deriving Repr

/-- The body of the per-entry loop of
`LinkManager.resp_handler_query_link_stats` (link_manager.py lines
654-710), processing `resp_data[tnlid][lnkid]`:
`UNKNOWN` pops the tunnel; for a mapped tunnel, `OFFLINE` either destroys
a stuck-creating link (`retry >= 2`), or moves a `QUERYING` (or
`retry >= 1` and `ONLINE`) tunnel to `OFFLINE` with a `Disconnected`
event, or merely logs a warning; `ONLINE` resets state, stats and retry;
anything else logs a warning. -/
def process_link_stats_entry (tunnels : Dict LmTunnel)
    (tnlid lnkid : String) (entry : LinkStatsEntry) : LmOutcome :=
  if entry.status == "UNKNOWN" then
    { tunnels := Dict.pop tunnels tnlid }
  else
    match Dict.get? tunnels tnlid with
    | none => { tunnels := tunnels }
    | some tnl =>
        if entry.status == "OFFLINE" then
          match tnl.link with
          | none => { tunnels := tunnels, raised := some PyErr.attributeError }
          | some lk =>
              let retry := lk.status_retry
              if retry ≥ 2 && tnl.tunnel_state == TUNNEL_STATES.CREATING then
                { tunnels := tunnels, cbts := ["TCI_REMOVE_TUNNEL"] }
              else if tnl.tunnel_state == TUNNEL_STATES.QUERYING ||
                  (retry ≥ 1 && tnl.tunnel_state == TUNNEL_STATES.ONLINE) then
                { tunnels := Dict.set tunnels tnlid
                    { tnl with tunnel_state := TUNNEL_STATES.OFFLINE },
                  events := [{ update_type := TUNNEL_EVENTS.Disconnected,
                               overlay_id := tnl.overlay_id, peer_id := tnl.peer_id,
                               tnlid := tnlid, tap_name := some tnl.tap_name }] }
              else
                { tunnels := tunnels }
        else if entry.status == "ONLINE" then
          -- line 701 `tnl.tunnel_state = ONLINE` executes first; line 702
          -- `tnl.link.stats = ...` then raises AttributeError when `link`
          -- is None, leaving the already-mutated entry in the map
          let tnl1 : LmTunnel := { tnl with tunnel_state := TUNNEL_STATES.ONLINE }
          match tnl.link with
          | none =>
              { tunnels := Dict.set tunnels tnlid tnl1,
                raised := some PyErr.attributeError }
          | some lk =>
              let lk1 : Link := { lk with stats := entry.stats, status_retry := 0 }
              { tunnels := Dict.set tunnels tnlid { tnl1 with link := some lk1 } }
        else
          { tunnels := tunnels }

/-- Sequence the flattened `(tnlid, lnkid, entry)` triplets of
`resp_data` through `process_link_stats_entry`, accumulating effects; an
exception aborts the remaining iterations (it propagates out of the
handler). -/
def resp_handler_query_link_stats (tunnels : Dict LmTunnel) :
    List (String × String × LinkStatsEntry) → LmOutcome
  | [] => { tunnels := tunnels }
  | (tnlid, lnkid, entry) :: rest =>
      let out := process_link_stats_entry tunnels tnlid lnkid entry
      match out.raised with
      | some e => { out with raised := some e }
      | none =>
          let out2 := resp_handler_query_link_stats out.tunnels rest
          { tunnels := out2.tunnels, events := out.events ++ out2.events,
            cbts := out.cbts ++ out2.cbts, raised := out2.raised }

/-- Class `JidCache` (signal.py lines 65-103): a map from node id to
`(jid, inserted_at)` with a freshness horizon.  Timestamps are modelled
as integers. -/
structure JidCache where
  cache : Dict (String × Int)
  expiry : Int
deriving Repr

/-- Source `JidCache.add_entry` (lines 76-80): upsert and return the insertion
timestamp. -/
def JidCache.add_entry (c : JidCache) (now : Int) (node_id jid : String) :
    Int × JidCache :=
  (now, { c with cache := Dict.set c.cache node_id (jid, now) })

/-- Source `JidCache.lookup` (lines 95-103): return the jid when present and
fresh (`now - inserted_at < expiry`); delete the entry when present but
stale; `None` otherwise. -/
def JidCache.lookup (c : JidCache) (now : Int) (node_id : String) :
    Option String × JidCache :=
  match Dict.get? c.cache node_id with
  | some entry =>
      if now - entry.2 < c.expiry then (some entry.1, c)
      else (none, { c with cache := Dict.pop c.cache node_id })
  | none => (none, c)

/-- Class `Transaction` (timed_transactions.py lines 8-17).  The callbacks may
raise, modelled with `Except PyErr`. -/
structure Transaction (α : Type) where
  item : α
  _is_completed : α → Except PyErr Bool
  on_expired : α → Int → Except PyErr Unit
  lifespan : Nat
  priority : Nat := 10

/-- Source `Transaction.is_completed` (lines 16-17). -/
def Transaction.is_completed {α : Type} (e : Transaction α) : Except PyErr Bool :=
  e._is_completed e.item

/-- Source `TimedTransactions._get_expired` (lines 36-39): evaluate
`is_completed`, and fire `on_expired` when it returns false.  There is no
`try`/`except`: any exception propagates to the caller (`sched.run`). -/
def TimedTransactions.get_expired {α : Type} (entry : Transaction α)
    (now : Int) : Except PyErr Bool := do
  let c ← entry.is_completed
  if ¬ c then do
    entry.on_expired entry.item now
    pure true
  else
    pure false

/-- The drain performed by `TimedTransactions._run` via `sched.run`
(lines 41-43): due entries are executed in order; returns the items whose
expiry callback fired and, when the callback of an entry raises, the escaped
exception — which terminates the worker thread, leaving the remaining
entries unprocessed. -/
def drain_due {α : Type} (now : Int) :
    List (Transaction α) → List α × Option PyErr
  | [] => ([], none)
  | entry :: rest =>
      match TimedTransactions.get_expired entry now with
      | Except.error e => ([], some e)
      | Except.ok fired =>
          let out := drain_due now rest
          (if fired then entry.item :: out.1 else out.1, out.2)

/-- The GraphBuilder fields that successor selection depends on
(graph_builder.py lines 43-64): self node id, `MinSuccessors`, the peer
list, the sorted node ring and the index of self in it. -/
structure GraphBuilder where
  node_id : String
  min_successors : Nat
  peers : List String
  nodes : List String
  my_idx : Nat
deriving Repr

/-- Python `list.index(x)`: position of the first occurrence. -/
def list_index (x : String) : List String → Nat
  | [] => 0
  | y :: rest => if y = x then 0 else list_index x rest + 1

/-- Lexicographic order on code-point sequences, as Python compares
strings. -/
def chars_le : List Char → List Char → Bool
  | [], _ => true
  | _ :: _, [] => false
  | a :: as, b :: bs =>
      if a < b then true else if b < a then false else chars_le as bs

/-- Python string `<=`. -/
def pystr_le (a b : String) : Bool := chars_le a.data b.data

/-- Source `GraphBuilder._prep` (lines 329-334): `nodes` is the sorted list
`peers + [node_id]` and `my_idx` is the index of self in it
(`list.sort()` sorts lexicographically; equal strings being
indistinguishable, stable insertion sort yields the same list). -/
def GraphBuilder.prep (node_id : String) (min_successors : Nat)
    (peers : List String) : GraphBuilder :=
  let nodes := List.insertionSort (fun a b => pystr_le a b = true) (peers ++ [node_id])
  { node_id := node_id, min_successors := min_successors, peers := peers,
    nodes := nodes, my_idx := list_index node_id nodes }

/-- The `for _ in range(num_succ)` loop of `_get_successors` (lines
85-88): starting from `idx`, repeatedly reduce modulo `len(nodes)`,
append that node and advance. -/
def succ_loop (nodes : List String) : Nat → Nat → List String
  | _, 0 => []
  | idx, Nat.succ n =>
      let j := idx % nodes.length
      nodes.getD j "" :: succ_loop nodes (j + 1) n

/-- Source `GraphBuilder._get_successors` (lines 76-89). -/
def GraphBuilder.get_successors (g : GraphBuilder) : List String :=
  let num_peers := g.peers.length
  let num_succ :=
    if num_peers ≥ g.min_successors then g.min_successors else num_peers
  succ_loop g.nodes (g.my_idx + 1) num_succ

/-- Well-formedness of the geneve tunnel map: keys are unique and each
entry is stored under its own tunnel id (`self._tunnels[tnlid] = Tunnel(
tnlid, ...)` throughout `geneve_tunnel.py`). -/
def GnvWF (m : Dict Tunnel) : Prop :=
  Dict.Uniq m ∧ ∀ kv ∈ m, kv.1 = kv.2.tnlid

instance (m : Dict Tunnel) : Decidable (GnvWF m) :=
  inferInstanceAs (Decidable (_ ∧ _))

/-! Concrete fixtures used by witnesses, counterexamples and evaluations. -/

/-- A configuration with no `TapNamePrefix` for any overlay. -/
def cfg0 : GnvConfig := ⟨fun _ => none⟩

/-- A mapped geneve tunnel in `AUTHORIZED` state. -/
def tnl_auth : Tunnel :=
  { tnlid := "T1", overlay_id := "o1", peer_id := "p1",
    state := TUNNEL_STATES.AUTHORIZED, tap_name := "tapA" }

/-- A mapped geneve tunnel in `ONLINE` state whose tap is the one a
fresh `get_tap_name(peer, overlay)` would produce. -/
def tnl_online : Tunnel :=
  { tnlid := "T1", overlay_id := "ovl01", peer_id := "peerA",
    state := TUNNEL_STATES.ONLINE, tap_name := "ovl01peerA" }

/-- A NAT-traversing tunnel in `QUERYING` state with a completed link. -/
def lm_tnl_querying : LmTunnel :=
  { tnlid := "T1", overlay_id := "o1", peer_id := "p1", tap_name := "tapQ",
    tunnel_state := TUNNEL_STATES.QUERYING,
    link := some { lnkid := "L1", creation_state := 0xC0, status_retry := 0 } }

/-- A NAT-traversing tunnel in `CREATING` state with `status_retry = 0`. -/
def lm_tnl_creating : LmTunnel :=
  { tnlid := "T2", overlay_id := "o2", peer_id := "p2", tap_name := "tapC",
    tunnel_state := TUNNEL_STATES.CREATING,
    link := some { lnkid := "L2", creation_state := 0xC0, status_retry := 0 } }

/-- A link-stats response entry with status `OFFLINE`. -/
def off_entry : LinkStatsEntry := { status := "OFFLINE" }

/-- An authorized tunnel for the timeout-sweep scenario. -/
def tnl_ta : Tunnel :=
  { tnlid := "TA", overlay_id := "o", peer_id := "pa",
    state := TUNNEL_STATES.AUTHORIZED, tap_name := "tapa" }

/-- A creating tunnel for the timeout-sweep scenario. -/
def tnl_tc : Tunnel :=
  { tnlid := "TC", overlay_id := "o", peer_id := "pc",
    state := TUNNEL_STATES.CREATING, tap_name := "tapc" }

/-- A tunnel in `TNL_OFFLINE` for the timeout-sweep scenario. -/
def tnl_tf : Tunnel :=
  { tnlid := "TF", overlay_id := "o", peer_id := "pf",
    state := TUNNEL_STATES.TNL_OFFLINE, tap_name := "tapf" }

/-- An online tunnel for the timeout-sweep scenario. -/
def tnl_tn : Tunnel :=
  { tnlid := "TN", overlay_id := "o", peer_id := "pn",
    state := TUNNEL_STATES.ONLINE, tap_name := "tapn" }

/-- A tunnel map holding one tunnel in each relevant state. -/
def gnv_sweep_map : Dict Tunnel :=
  [("TA", tnl_ta), ("TC", tnl_tc), ("TF", tnl_tf), ("TN", tnl_tn)]

/-- A timed transaction whose completion check raises. -/
def tx_raise : Transaction Nat :=
  { item := 1, _is_completed := fun _ => Except.error PyErr.runtimeWarning,
    on_expired := fun _ _ => Except.ok (), lifespan := 1 }

/-- An incomplete timed transaction whose callbacks do not raise. -/
def tx_ok : Transaction Nat :=
  { item := 2, _is_completed := fun _ => Except.ok false,
    on_expired := fun _ _ => Except.ok (), lifespan := 1 }

/-- A timed transaction whose expiry callback raises. -/
def tx_expire_raise : Transaction Nat :=
  { item := 3, _is_completed := fun _ => Except.ok false,
    on_expired := fun _ _ => Except.error PyErr.typeError, lifespan := 1 }

theorem Dict.mem_keys_set {α : Type} (m : Dict α) (k j : String) (v : α) :
    j ∈ (Dict.set m k v).keys ↔ j ∈ m.keys ∨ j = k := by
  induction m with
  | nil => simp [Dict.set, Dict.keys]
  | cons kv rest ih =>
    obtain ⟨k0, v0⟩ := kv
    by_cases h0 : k0 = k
    · subst h0
      simp only [Dict.set, if_pos rfl, eq_self_iff_true, if_true, Dict.keys,
        List.map_cons, List.mem_cons]
      tauto
    · simp only [Dict.set, if_neg h0, Dict.keys, List.map_cons, List.mem_cons] at ih ⊢
      rw [ih]
      tauto

theorem Dict.uniq_set {α : Type} (m : Dict α) (k : String) (v : α)
    (h : Dict.Uniq m) : Dict.Uniq (Dict.set m k v) := by
  induction m with
  | nil => simp [Dict.set, Dict.Uniq, Dict.keys]
  | cons kv rest ih =>
    obtain ⟨k0, v0⟩ := kv
    simp only [Dict.Uniq, Dict.keys, List.map_cons, List.nodup_cons] at h
    by_cases h0 : k0 = k
    · subst h0
      simpa [Dict.set, Dict.Uniq, Dict.keys, List.nodup_cons] using h
    · have htl := ih h.2
      simp only [Dict.set, if_neg h0, Dict.Uniq, Dict.keys, List.map_cons,
        List.nodup_cons] at htl ⊢
      refine ⟨?_, htl⟩
      intro hmem
      rcases (Dict.mem_keys_set rest k k0 v).mp hmem with hh | hh
      · exact h.1 hh
      · exact h0 hh

/-- C9 (JidCache round trip): `add_entry(n, a)` at time `t` returns `t`;
a lookup at a time `now` with `now - t < expiry` returns `a`; a stale
lookup (`now - t ≥ expiry`) returns nothing and removes the entry. -/
theorem jidcache_roundtrip (c : JidCache) (t now : Int) (n a : String)
    (hu : Dict.Uniq c.cache) :
    ((JidCache.add_entry c t n a).1 = t) ∧
    (now - t < c.expiry →
      (JidCache.lookup (JidCache.add_entry c t n a).2 now n).1 = some a) ∧
    (c.expiry ≤ now - t →
      (JidCache.lookup (JidCache.add_entry c t n a).2 now n).1 = none ∧
      Dict.get? (JidCache.lookup (JidCache.add_entry c t n a).2 now n).2.cache n
        = none) := by
  refine ⟨rfl, ?_, ?_⟩
  · intro hfresh
    simp [JidCache.lookup, JidCache.add_entry, Dict.get?_set_self, hfresh]
  · intro hstale
    have hnot : ¬ (now - t < c.expiry) := not_lt.mpr hstale
    constructor
    · simp [JidCache.lookup, JidCache.add_entry, Dict.get?_set_self, hnot]
    · simp only [JidCache.lookup, JidCache.add_entry, Dict.get?_set_self, hnot,
        if_false, if_neg hnot]
      exact Dict.get?_pop_self _ n (Dict.uniq_set c.cache n (a, t) hu)

/-- C9 witness. -/
theorem jidcache_roundtrip_witness :
    (Dict.Uniq ([("pX", ("jidX", (0 : Int)))] : Dict (String × Int))) ∧
    (((JidCache.add_entry ⟨[("pX", ("jidX", 0))], 60⟩ 10 "p1" "addr1").1 = 10) ∧
    ((JidCache.lookup (JidCache.add_entry ⟨[("pX", ("jidX", 0))], 60⟩ 10 "p1" "addr1").2 11 "p1").1 = some "addr1") ∧
    ((JidCache.lookup (JidCache.add_entry ⟨[("pX", ("jidX", 0))], 60⟩ 10 "p1" "addr1").2 75 "p1").1 = none ∧
      Dict.get? (JidCache.lookup (JidCache.add_entry ⟨[("pX", ("jidX", 0))], 60⟩ 10 "p1" "addr1").2 75 "p1").2.cache "p1" = none)) := by
  constructor
  · decide
  · have h75 := jidcache_roundtrip ⟨[("pX", ("jidX", 0))], 60⟩ 10 75 "p1" "addr1" (by decide)
    have h11 := jidcache_roundtrip ⟨[("pX", ("jidX", 0))], 60⟩ 10 11 "p1" "addr1" (by decide)
    exact ⟨h11.1, h11.2.1 (by decide), h75.2.2 (by decide)⟩

/-- C10 (frame effect of `GNV_UPDATE_MAC` on a mapped tunnel that is
neither `CREATING` nor `OFFLINE`): the CBT completes with status false,
no event is published, and the tunnel map — hence the record, its state,
its peer mac and its membership — is entirely unchanged. -/
theorem update_peer_mac_frame (tunnels : Dict Tunnel)
    (olid tnlid peer_id mac : String) (tnl : Tunnel)
    (hmem : Dict.get? tunnels tnlid = some tnl)
    (h1 : tnl.state ≠ TUNNEL_STATES.CREATING)
    (h2 : tnl.state ≠ TUNNEL_STATES.OFFLINE) :
    (req_handler_update_peer_mac tunnels olid tnlid peer_id mac).tunnels = tunnels ∧
    (req_handler_update_peer_mac tunnels olid tnlid peer_id mac).events = [] ∧
    (req_handler_update_peer_mac tunnels olid tnlid peer_id mac).responses = [false] ∧
    (req_handler_update_peer_mac tunnels olid tnlid peer_id mac).raised = none ∧
    Dict.get? (req_handler_update_peer_mac tunnels olid tnlid peer_id mac).tunnels tnlid
      = some tnl := by
  have hb1 : (tnl.state == TUNNEL_STATES.OFFLINE) = false := by
    simpa using h2
  have hb2 : (tnl.state == TUNNEL_STATES.CREATING) = false := by
    simpa using h1
  simp [req_handler_update_peer_mac, hmem, hb1, hb2]

/-- C10 witness. -/
theorem update_peer_mac_frame_witness :
    (Dict.get? [("T1", tnl_auth)] "T1" = some tnl_auth ∧
     tnl_auth.state ≠ TUNNEL_STATES.CREATING ∧
     tnl_auth.state ≠ TUNNEL_STATES.OFFLINE) ∧
    (req_handler_update_peer_mac [("T1", tnl_auth)] "o1" "T1" "p1" "aa:bb").tunnels
      = [("T1", tnl_auth)] ∧
    (req_handler_update_peer_mac [("T1", tnl_auth)] "o1" "T1" "p1" "aa:bb").events
      = [] := by
  have h := update_peer_mac_frame [("T1", tnl_auth)] "o1" "T1" "p1" "aa:bb" tnl_auth
    (by decide) (by decide) (by decide)
  exact ⟨⟨by decide, by decide, by decide⟩, h.1, h.2.1⟩

/-- C2 (code-bug evaluation): a `GNV_EXCHANGE_ENDPT` request whose
TunnelId is absent from the map drives the handler into its `except`
block, whose own `self._tunnels[tnlid].state = ...` raises `KeyError`:
the exception escapes the handler, the CBT is never completed, and no
kernel interface is created. -/
theorem exchnge_endpt_absent_raises :
    (req_handler_exchnge_endpt [] (fun _ => false) false "T1").raised
      = some (PyErr.keyError "T1") ∧
    (req_handler_exchnge_endpt [] (fun _ => false) false "T1").responses = [] ∧
    (req_handler_exchnge_endpt [] (fun _ => false) false "T1").taps_created = [] := by
  decide

/-- C3 (code-bug evaluation): a `GNV_CREATE_TUNNEL` request with a
duplicate TunnelId completes the CBT with status false but — the branch
does not return — still removes the existing tap, replaces the existing
`ONLINE` record with a fresh `CREATING` one, and submits the
`GNV_EXCHANGE_ENDPT` remote action to the peer. -/
theorem create_tunnel_duplicate_not_atomic :
    tnl_online.state = TUNNEL_STATES.ONLINE ∧
    (req_handler_create_tunnel cfg0 [("T1", tnl_online)]
        (fun s => s == "ovl01peerA") "ovl01" "T1" "peerA").responses = [false] ∧
    Dict.get? (req_handler_create_tunnel cfg0 [("T1", tnl_online)]
        (fun s => s == "ovl01peerA") "ovl01" "T1" "peerA").tunnels "T1"
      = some { tnlid := "T1", overlay_id := "ovl01", peer_id := "peerA",
               state := TUNNEL_STATES.CREATING, tap_name := "ovl01peerA" } ∧
    (req_handler_create_tunnel cfg0 [("T1", tnl_online)]
        (fun s => s == "ovl01peerA") "ovl01" "T1" "peerA").taps_removed
      = ["ovl01peerA"] ∧
    (req_handler_create_tunnel cfg0 [("T1", tnl_online)]
        (fun s => s == "ovl01peerA") "ovl01" "T1" "peerA").remote_acts
      = ["GNV_EXCHANGE_ENDPT"] := by
  decide

/-- C6 (code-bug evaluation): for the same overlay `"ovl01"` and peer
`"peerNode01"`, authorization derives the tap name
`get_tap_name(peer, overlay) = "ovl01peerNode01"`, while the
remove-tunnel handler (line 339) derives `get_tap_name(olid, peer_id)`
with the arguments swapped, producing the different name
`"peerNovl01"` — the tap-name derivation is not a consistent function of
`(overlay, peer)` across operations. -/
theorem tap_name_callsite_mismatch :
    ((Dict.get? (req_handler_auth_tunnel cfg0 [] "ovl01" "peerNode01" "T1").tunnels
        "T1").map Tunnel.tap_name = some "ovl01peerNode01") ∧
    (req_handler_remove_tunnel cfg0 [] "ovl01" "T1" "peerNode01").taps_removed
      = ["peerNovl01"] ∧
    ("ovl01peerNode01" : String) ≠ "peerNovl01" ∧
    "ovl01peerNode01".length ≤ TAPNAME_MAXLEN := by
  decide

/-- C5 (code-bug evaluation): an `OFFLINE` stats entry for a mapped
tunnel in `CREATING` state with `status_retry = 0` falls into the final
branch, which only logs: `status_retry` is left at 0 — it is never
incremented (no statement in `link_manager.py` increments it), so the
`retry >= 2` destroy branch is unreachable. -/
theorem link_stats_retry_not_incremented :
    (process_link_stats_entry [("T2", lm_tnl_creating)] "T2" "L2" off_entry).tunnels
      = [("T2", lm_tnl_creating)] ∧
    (process_link_stats_entry [("T2", lm_tnl_creating)] "T2" "L2" off_entry).events
      = [] ∧
    (process_link_stats_entry [("T2", lm_tnl_creating)] "T2" "L2" off_entry).cbts
      = [] ∧
    ((Dict.get? (process_link_stats_entry [("T2", lm_tnl_creating)] "T2" "L2"
        off_entry).tunnels "T2").bind LmTunnel.link).map Link.status_retry
      = some 0 := by
  decide

/-- C1 counterexample: processing a `QueryLinkStats` response that
reports `OFFLINE` for a mapped `QUERYING` tunnel completes normally,
publishes `Disconnected` — and leaves the tunnel in the map with state
`OFFLINE`, violating `∀ t in map: t.state ≠ Offline`. -/
theorem offline_tunnel_left_in_map :
    ((Dict.get? (resp_handler_query_link_stats [("T1", lm_tnl_querying)]
        [("T1", "L1", off_entry)]).tunnels "T1").map LmTunnel.tunnel_state
      = some TUNNEL_STATES.OFFLINE) ∧
    (resp_handler_query_link_stats [("T1", lm_tnl_querying)]
        [("T1", "L1", off_entry)]).raised = none ∧
    (resp_handler_query_link_stats [("T1", lm_tnl_querying)]
        [("T1", "L1", off_entry)]).events.map TunnelEvent.update_type
      = [TUNNEL_EVENTS.Disconnected] := by
  decide

/-- C1 amended: in the kernel-flavour manager the remove-tunnel handler
pops the entry it transitions to Offline (leaving every other entry
untouched), but the NAT-flavour stats handler does not: a mapped
`QUERYING` tunnel with an `OFFLINE` stats entry is set to `OFFLINE`,
`Disconnected` is published, and the record remains in the map — its
removal is deferred to a later remove-tunnel request. -/
theorem offline_transition_map_discipline
    (cfg : GnvConfig) (m : Dict Tunnel) (olid tnlid peer_id : String)
    (hu : Dict.Uniq m)
    (lm : Dict LmTunnel) (qid lid : String) (tnl : LmTunnel) (lk : Link)
    (entry : LinkStatsEntry)
    (hq : Dict.get? lm qid = some tnl)
    (hst : tnl.tunnel_state = TUNNEL_STATES.QUERYING)
    (hlk : tnl.link = some lk)
    (he : entry.status = "OFFLINE") :
    (Dict.get? (req_handler_remove_tunnel cfg m olid tnlid peer_id).tunnels tnlid
        = none ∧
      ∀ j, j ≠ tnlid →
        Dict.get? (req_handler_remove_tunnel cfg m olid tnlid peer_id).tunnels j
          = Dict.get? m j) ∧
    (Dict.get? (process_link_stats_entry lm qid lid entry).tunnels qid
        = some { tnl with tunnel_state := TUNNEL_STATES.OFFLINE } ∧
      (process_link_stats_entry lm qid lid entry).events.map TunnelEvent.update_type
        = [TUNNEL_EVENTS.Disconnected]) := by
  constructor
  · cases hm : Dict.get? m tnlid with
    | some tnl0 =>
      constructor
      · simp only [req_handler_remove_tunnel, hm]
        exact Dict.get?_pop_self _ tnlid (Dict.uniq_set m tnlid _ hu)
      · intro j hj
        simp only [req_handler_remove_tunnel, hm]
        rw [Dict.get?_pop_ne _ tnlid j hj, Dict.get?_set_ne m tnlid j _ hj]
    | none =>
      constructor
      · simp only [req_handler_remove_tunnel, hm]
      · intro j hj
        simp only [req_handler_remove_tunnel, hm]
  · constructor
    · simp [process_link_stats_entry, he, hq, hlk, hst, Dict.get?_set_self]
    · simp [process_link_stats_entry, he, hq, hlk, hst]

/-- C1 amended witness. -/
theorem offline_transition_map_discipline_witness :
    (Dict.Uniq [("T1", tnl_online)] ∧
     Dict.get? [("TQ", lm_tnl_querying)] "TQ" = some lm_tnl_querying ∧
     lm_tnl_querying.tunnel_state = TUNNEL_STATES.QUERYING ∧
     lm_tnl_querying.link = some ⟨"L1", 0xC0, 0, ""⟩ ∧
     off_entry.status = "OFFLINE") ∧
    ((Dict.get? (req_handler_remove_tunnel cfg0 [("T1", tnl_online)] "ovl01" "T1"
        "peerA").tunnels "T1" = none ∧
      ∀ j, j ≠ "T1" →
        Dict.get? (req_handler_remove_tunnel cfg0 [("T1", tnl_online)] "ovl01" "T1"
          "peerA").tunnels j = Dict.get? [("T1", tnl_online)] j) ∧
     (Dict.get? (process_link_stats_entry [("TQ", lm_tnl_querying)] "TQ" "L1"
          off_entry).tunnels "TQ"
        = some { lm_tnl_querying with tunnel_state := TUNNEL_STATES.OFFLINE } ∧
      (process_link_stats_entry [("TQ", lm_tnl_querying)] "TQ" "L1"
          off_entry).events.map TunnelEvent.update_type
        = [TUNNEL_EVENTS.Disconnected])) :=
  ⟨⟨by decide, by decide, by decide, by decide, by decide⟩,
    offline_transition_map_discipline cfg0 [("T1", tnl_online)] "ovl01" "T1" "peerA"
      (by decide) [("TQ", lm_tnl_querying)] "TQ" "L1" lm_tnl_querying
      ⟨"L1", 0xC0, 0, ""⟩ off_entry (by decide) (by decide) (by decide) (by decide)⟩

/-- C8 counterexample: with two due, incomplete transactions where the
first of them raises from its expiry callback, the drain ends with the exception
escaping (the worker thread dies) and the callback of the second transaction
never fires — the exception is not caught inside the worker. -/
theorem timed_expiry_exception_escapes :
    drain_due 5 [tx_expire_raise, tx_ok] = ([], some PyErr.typeError) := rfl

/-- C8 amended: an exception raised by `is_complete_fn` or
`on_expire_fn` propagates out of `_get_expired` (there is no
`try`/`except` in `timed_transactions.py`): the drain stops, the
exception escapes the worker, and the remaining due entries are not
processed. -/
theorem timed_expiry_exception_stops_worker {α : Type} (entry : Transaction α)
    (rest : List (Transaction α)) (now : Int) (e : PyErr)
    (h : TimedTransactions.get_expired entry now = Except.error e) :
    drain_due now (entry :: rest) = ([], some e) := by
  simp [drain_due, h]

/-- C8 amended witness. -/
theorem timed_expiry_exception_stops_worker_witness :
    (TimedTransactions.get_expired tx_raise (5 : Int)
      = Except.error PyErr.runtimeWarning) ∧
    drain_due 5 [tx_raise, tx_ok] = ([], some PyErr.runtimeWarning) :=
  ⟨rfl, timed_expiry_exception_stops_worker tx_raise [tx_ok] 5
    PyErr.runtimeWarning rfl⟩

theorem deauth_get?_of_not_mem (m : Dict Tunnel) (L : List Tunnel) (j : String)
    (h : j ∉ L.map Tunnel.tnlid) :
    Dict.get? (_deauth_tnls m L) j = Dict.get? m j := by
  induction L generalizing m with
  | nil => rfl
  | cons t rest ih =>
    simp only [List.map_cons, List.mem_cons, not_or] at h
    simp only [_deauth_tnls]
    rw [ih _ h.2, Dict.get?_pop_ne _ _ _ h.1]

theorem deauth_get?_none (m : Dict Tunnel) (L : List Tunnel) (j : String)
    (h : Dict.get? m j = none) : Dict.get? (_deauth_tnls m L) j = none := by
  induction L generalizing m with
  | nil => exact h
  | cons t rest ih =>
    simp only [_deauth_tnls]
    exact ih _ (Dict.get?_pop_none m t.tnlid j h)

theorem uniq_deauth (m : Dict Tunnel) (L : List Tunnel)
    (h : Dict.Uniq m) : Dict.Uniq (_deauth_tnls m L) := by
  induction L generalizing m with
  | nil => exact h
  | cons t rest ih =>
    simp only [_deauth_tnls]
    exact ih _ (Dict.uniq_pop m t.tnlid h)

theorem deauth_get?_of_mem (m : Dict Tunnel) (L : List Tunnel) (j : String)
    (hu : Dict.Uniq m) (h : j ∈ L.map Tunnel.tnlid) :
    Dict.get? (_deauth_tnls m L) j = none := by
  induction L generalizing m with
  | nil => simp at h
  | cons t rest ih =>
    simp only [List.map_cons, List.mem_cons] at h
    simp only [_deauth_tnls]
    rcases h with h | h
    · exact deauth_get?_none _ rest j (h ▸ Dict.get?_pop_self m t.tnlid hu)
    · exact ih _ (Dict.uniq_pop m t.tnlid hu) h

theorem rollback_fst (m : Dict Tunnel) (L : List Tunnel) :
    (_rollback_tnls m L).1 = _deauth_tnls m L := by
  induction L generalizing m with
  | nil => rfl
  | cons t rest ih => simp only [_rollback_tnls, _deauth_tnls, ih]

theorem rollback_taps (m : Dict Tunnel) (L : List Tunnel) :
    (_rollback_tnls m L).2.1 = L.map Tunnel.tap_name := by
  induction L generalizing m with
  | nil => rfl
  | cons t rest ih => simp only [_rollback_tnls, List.map_cons, ih]

theorem rollback_events (m : Dict Tunnel) (L : List Tunnel) :
    (_rollback_tnls m L).2.2 = L.map removed_event := by
  induction L generalizing m with
  | nil => rfl
  | cons t rest ih => simp only [_rollback_tnls, List.map_cons, ih]

theorem wf_values_tnlid_nodup (m : Dict Tunnel) (hwf : GnvWF m) :
    ((Dict.values m).map Tunnel.tnlid).Nodup := by
  have hmap : (Dict.values m).map Tunnel.tnlid = m.keys := by
    simp only [Dict.values, Dict.keys, List.map_map]
    exact (List.map_congr_left (fun kv hkv => (hwf.2 kv hkv).symm))
  rw [hmap]
  exact hwf.1

theorem wf_values_get? (m : Dict Tunnel) (t : Tunnel) (hwf : GnvWF m)
    (h : t ∈ Dict.values m) : Dict.get? m t.tnlid = some t := by
  obtain ⟨kv, hkv, hsnd⟩ := List.mem_map.mp h
  have hfst : kv.1 = t.tnlid := hsnd ▸ hwf.2 kv hkv
  have : (t.tnlid, t) ∈ m := by
    have : kv = (t.tnlid, t) := Prod.ext hfst hsnd
    exact this ▸ hkv
  exact Dict.mem_get? m t.tnlid t hwf.1 this

/-- C4: when a kernel-flavour timed transaction expires for a tunnel that
has not reached `ONLINE`, the sweep removes every `AUTHORIZED` tunnel
silently (no event carries its id), and removes every `CREATING` /
`TNL_OFFLINE` tunnel, destroys its kernel interface, and publishes
exactly one event for it — a `Removed` event. -/
theorem gnv_timeout_sweep (m : Dict Tunnel) (tnl : Tunnel)
    (hwf : GnvWF m) (hno : tnl.state ≠ TUNNEL_STATES.ONLINE) :
    (∀ t ∈ Dict.values m, t.state = TUNNEL_STATES.AUTHORIZED →
       Dict.get? (gnv_on_timed_expiry m tnl).1 t.tnlid = none ∧
       ∀ e ∈ (gnv_on_timed_expiry m tnl).2.2, e.tnlid ≠ t.tnlid) ∧
    (∀ t ∈ Dict.values m,
       (t.state = TUNNEL_STATES.CREATING ∨ t.state = TUNNEL_STATES.TNL_OFFLINE) →
       Dict.get? (gnv_on_timed_expiry m tnl).1 t.tnlid = none ∧
       t.tap_name ∈ (gnv_on_timed_expiry m tnl).2.1 ∧
       (gnv_on_timed_expiry m tnl).2.2.countP (fun e => e.tnlid == t.tnlid) = 1 ∧
       ∀ e ∈ (gnv_on_timed_expiry m tnl).2.2,
         e.update_type = TUNNEL_EVENTS.Removed) := by
  have hbeq : (tnl.state == TUNNEL_STATES.ONLINE) = false := by
    simpa using hno
  have hexp : gnv_on_timed_expiry m tnl = on_tnl_timeout m := by
    simp [gnv_on_timed_expiry, is_tnl_completed, hbeq]
  rw [hexp]
  set deauth := (Dict.values m).filter
    (fun t => t.state == TUNNEL_STATES.AUTHORIZED) with hdeauth
  set rlbk := (Dict.values m).filter
    (fun t => t.state == TUNNEL_STATES.CREATING
      || t.state == TUNNEL_STATES.TNL_OFFLINE) with hrlbk
  have hout : on_tnl_timeout m = _rollback_tnls (_deauth_tnls m deauth) rlbk := rfl
  rw [hout]
  have hudx : Dict.Uniq (_deauth_tnls m deauth) := uniq_deauth m deauth hwf.1
  have hvnodup := wf_values_tnlid_nodup m hwf
  have hrsub : rlbk.Sublist (Dict.values m) := List.filter_sublist _
  have hrnodup : (rlbk.map Tunnel.tnlid).Nodup := (hrsub.map Tunnel.tnlid).nodup hvnodup
  have hmapfst := rollback_fst (_deauth_tnls m deauth) rlbk
  have hmaptaps := rollback_taps (_deauth_tnls m deauth) rlbk
  have hmapevs := rollback_events (_deauth_tnls m deauth) rlbk
  constructor
  · intro t ht hst
    have htd : t ∈ deauth := by
      rw [hdeauth]
      exact List.mem_filter.mpr ⟨ht, by simp [hst]⟩
    have hid : t.tnlid ∈ deauth.map Tunnel.tnlid := List.mem_map_of_mem _ htd
    constructor
    · rw [hmapfst]
      exact deauth_get?_none _ rlbk t.tnlid
        (deauth_get?_of_mem m deauth t.tnlid hwf.1 hid)
    · intro e he hcontra
      rw [hmapevs] at he
      obtain ⟨u, hu, hue⟩ := List.mem_map.mp he
      have hutnl : u.tnlid = t.tnlid := by rw [← hue] at hcontra; exact hcontra
      have hum : u ∈ Dict.values m := List.Sublist.mem hu hrsub
      have : u = t := List.inj_on_of_nodup_map hvnodup hum ht hutnl
      subst this
      have := (List.mem_filter.mp hu).2
      rw [hst] at this
      simp at this
  · intro t ht hst
    have htr : t ∈ rlbk := by
      rw [hrlbk]
      refine List.mem_filter.mpr ⟨ht, ?_⟩
      rcases hst with h | h <;> simp [h]
    have hid : t.tnlid ∈ rlbk.map Tunnel.tnlid := List.mem_map_of_mem _ htr
    refine ⟨?_, ?_, ?_, ?_⟩
    · rw [hmapfst]
      exact deauth_get?_of_mem _ rlbk t.tnlid hudx hid
    · rw [hmaptaps]
      exact List.mem_map_of_mem _ htr
    · rw [hmapevs]
      rw [List.countP_map]
      have hcomp : ((fun e : TunnelEvent => e.tnlid == t.tnlid) ∘ removed_event)
          = fun u : Tunnel => u.tnlid == t.tnlid := rfl
      rw [hcomp]
      have hre : (fun u : Tunnel => u.tnlid == t.tnlid)
          = ((fun s : String => s == t.tnlid) ∘ Tunnel.tnlid) := rfl
      rw [hre, ← List.countP_map]
      exact List.count_eq_one_of_mem hrnodup hid
    · intro e he
      rw [hmapevs] at he
      obtain ⟨u, _, hue⟩ := List.mem_map.mp he
      rw [← hue]
      rfl

/-- C4 witness. -/
theorem gnv_timeout_sweep_witness :
    (GnvWF gnv_sweep_map ∧ tnl_tc.state ≠ TUNNEL_STATES.ONLINE) ∧
    (∀ t ∈ Dict.values gnv_sweep_map, t.state = TUNNEL_STATES.AUTHORIZED →
      Dict.get? (gnv_on_timed_expiry gnv_sweep_map tnl_tc).1 t.tnlid = none) ∧
    (∀ t ∈ Dict.values gnv_sweep_map,
      (t.state = TUNNEL_STATES.CREATING ∨ t.state = TUNNEL_STATES.TNL_OFFLINE) →
      Dict.get? (gnv_on_timed_expiry gnv_sweep_map tnl_tc).1 t.tnlid = none ∧
      t.tap_name ∈ (gnv_on_timed_expiry gnv_sweep_map tnl_tc).2.1 ∧
      (gnv_on_timed_expiry gnv_sweep_map tnl_tc).2.2.countP
        (fun e => e.tnlid == t.tnlid) = 1) := by
  have h := gnv_timeout_sweep gnv_sweep_map tnl_tc (by decide) (by decide)
  exact ⟨⟨by decide, by decide⟩, fun t ht hst => (h.1 t ht hst).1,
    fun t ht hst => ⟨(h.2 t ht hst).1, (h.2 t ht hst).2.1, (h.2 t ht hst).2.2.1⟩⟩

theorem succ_loop_length (nodes : List String) (idx n : Nat) :
    (succ_loop nodes idx n).length = n := by
  induction n generalizing idx with
  | zero => rfl
  | succ n ih => simp only [succ_loop, List.length_cons, ih]

theorem succ_loop_getD (nodes : List String) (idx n i : Nat) (hi : i < n) :
    (succ_loop nodes idx n).getD i ""
      = nodes.getD ((idx + i) % nodes.length) "" := by
  induction n generalizing idx i with
  | zero => omega
  | succ n ih =>
    cases i with
    | zero => simp only [succ_loop, List.getD_cons_zero, Nat.add_zero]
    | succ j =>
      have hj : j < n := Nat.lt_of_succ_lt_succ hi
      simp only [succ_loop, List.getD_cons_succ]
      rw [ih _ j hj]
      have h1 : idx % nodes.length + 1 + j = idx % nodes.length + (1 + j) := by omega
      rw [h1, Nat.mod_add_mod]
      have h2 : idx + (1 + j) = idx + (j + 1) := by omega
      rw [h2]

theorem list_index_lt_length (x : String) (l : List String) (h : x ∈ l) :
    list_index x l < l.length := by
  induction l with
  | nil => simp at h
  | cons y rest ih =>
    by_cases hy : y = x
    · simp [list_index, hy]
    · have hx : x ∈ rest := by
        rcases List.mem_cons.mp h with h1 | h1
        · exact absurd h1.symm hy
        · exact h1
      simp only [list_index, if_neg hy, List.length_cons]
      exact Nat.succ_lt_succ (ih hx)

theorem getD_list_index (x : String) (l : List String) (h : x ∈ l) :
    l.getD (list_index x l) "" = x := by
  induction l with
  | nil => simp at h
  | cons y rest ih =>
    by_cases hy : y = x
    · simp [list_index, hy, List.getD_cons_zero]
    · have hx : x ∈ rest := by
        rcases List.mem_cons.mp h with h1 | h1
        · exact absurd h1.symm hy
        · exact h1
      simp only [list_index, if_neg hy, List.getD_cons_succ]
      exact ih hx

theorem nodup_getD_inj (l : List String) (hl : l.Nodup) (i j : Nat)
    (hi : i < l.length) (hj : j < l.length)
    (h : l.getD i "" = l.getD j "") : i = j := by
  rw [List.getD_eq_getElem l "" hi, List.getD_eq_getElem l "" hj] at h
  have hget : l.get ⟨i, hi⟩ = l.get ⟨j, hj⟩ := by
    simpa [List.get_eq_getElem] using h
  exact congrArg Fin.val ((List.Nodup.get_inj_iff hl).mp hget)

/-- C7 amended: for a non-empty, duplicate-free peer list not containing
the self id, the successor selection returns exactly
`min(min_successors, |peers|)` pairwise-distinct peers — the consecutive
clockwise neighbours of `my_idx` in the sorted ring — and never selects
the self id. -/
theorem graphbuilder_successors (node_id : String) (k : Nat)
    (peers : List String) (hne : peers ≠ []) (hself : node_id ∉ peers)
    (hnd : peers.Nodup) :
    (GraphBuilder.prep node_id k peers).get_successors.length
      = min k peers.length ∧
    (GraphBuilder.prep node_id k peers).get_successors.Nodup ∧
    node_id ∉ (GraphBuilder.prep node_id k peers).get_successors ∧
    (∀ x ∈ (GraphBuilder.prep node_id k peers).get_successors, x ∈ peers) ∧
    (∀ i, i < (GraphBuilder.prep node_id k peers).get_successors.length →
      (GraphBuilder.prep node_id k peers).get_successors.getD i "" =
        (GraphBuilder.prep node_id k peers).nodes.getD
          (((GraphBuilder.prep node_id k peers).my_idx + 1 + i) %
            (GraphBuilder.prep node_id k peers).nodes.length) "") := by
  set g := GraphBuilder.prep node_id k peers with hg
  have hperm : g.nodes.Perm (peers ++ [node_id]) := List.perm_insertionSort _ _
  have hlen : g.nodes.length = peers.length + 1 := by
    rw [hperm.length_eq]
    simp
  have hpos : 0 < g.nodes.length := by omega
  have hnodesnd : g.nodes.Nodup := by
    refine hperm.nodup_iff.mpr ?_
    rw [List.nodup_append]
    exact ⟨hnd, List.nodup_singleton _,
      fun a ha hb => hself ((List.mem_singleton.mp hb) ▸ ha)⟩
  have hmemself : node_id ∈ g.nodes := hperm.mem_iff.mpr (by simp)
  have hmidx : g.my_idx = list_index node_id g.nodes := rfl
  have hmlt : g.my_idx < g.nodes.length := by
    rw [hmidx]
    exact list_index_lt_length _ _ hmemself
  have hgetm : g.nodes.getD g.my_idx "" = node_id := by
    rw [hmidx]
    exact getD_list_index _ _ hmemself
  have hsucc : g.get_successors = succ_loop g.nodes (g.my_idx + 1)
      (if peers.length ≥ k then k else peers.length) := rfl
  have hns_eq : (if peers.length ≥ k then k else peers.length)
      = min k peers.length := by
    split <;> omega
  set ns := min k peers.length with hnsdef
  have hslen : g.get_successors.length = ns := by
    rw [hsucc, succ_loop_length, hns_eq]
  have hns_le : ns ≤ peers.length := Nat.min_le_right _ _
  have hformula : ∀ i, i < ns →
      g.get_successors.getD i ""
        = g.nodes.getD ((g.my_idx + 1 + i) % g.nodes.length) "" := by
    intro i hi
    have hi2 : i < (if peers.length ≥ k then k else peers.length) := by
      rw [hns_eq]
      exact hi
    rw [hsucc, succ_loop_getD g.nodes (g.my_idx + 1) _ i hi2]
  have hidx_lt : ∀ i : Nat,
      (g.my_idx + 1 + i) % g.nodes.length < g.nodes.length :=
    fun i => Nat.mod_lt _ hpos
  have hidx_ne : ∀ i, i < ns →
      (g.my_idx + 1 + i) % g.nodes.length ≠ g.my_idx := by
    intro i hi hcontra
    have hm : g.my_idx % g.nodes.length = g.my_idx := Nat.mod_eq_of_lt hmlt
    have h1 : (g.my_idx + (1 + i)) % g.nodes.length
        = (g.my_idx + 0) % g.nodes.length := by
      rw [Nat.add_zero, hm, ← Nat.add_assoc]
      exact hcontra
    have h2 := Nat.ModEq.add_left_cancel' g.my_idx h1
    have h3 : (1 + i) % g.nodes.length = 0 := by simpa using h2
    have h4 : 1 + i < g.nodes.length := by omega
    rw [Nat.mod_eq_of_lt h4] at h3
    omega
  have hidx_inj : ∀ i j, i < ns → j < ns →
      (g.my_idx + 1 + i) % g.nodes.length
        = (g.my_idx + 1 + j) % g.nodes.length → i = j := by
    intro i j hi hj h
    have h0 : i % g.nodes.length = j % g.nodes.length :=
      Nat.ModEq.add_left_cancel' (g.my_idx + 1) h
    have hiL : i < g.nodes.length := by omega
    have hjL : j < g.nodes.length := by omega
    rwa [Nat.mod_eq_of_lt hiL, Nat.mod_eq_of_lt hjL] at h0
  have hnotmem : node_id ∉ g.get_successors := by
    intro hmem
    obtain ⟨⟨i, hi⟩, hget⟩ := List.mem_iff_get.mp hmem
    have hi2 : i < ns := by rwa [hslen] at hi
    have hval : g.get_successors.getD i "" = node_id := by
      rw [List.getD_eq_getElem _ _ hi]
      simpa [List.get_eq_getElem] using hget
    rw [hformula i hi2] at hval
    have heq : g.nodes.getD ((g.my_idx + 1 + i) % g.nodes.length) ""
        = g.nodes.getD g.my_idx "" := by rw [hval, hgetm]
    exact hidx_ne i hi2
      (nodup_getD_inj g.nodes hnodesnd _ _ (hidx_lt i) hmlt heq)
  have hnd_s : g.get_successors.Nodup := by
    rw [List.nodup_iff_injective_get]
    intro a b hab
    obtain ⟨i, hi⟩ := a
    obtain ⟨j, hj⟩ := b
    have hi2 : i < ns := by rwa [hslen] at hi
    have hj2 : j < ns := by rwa [hslen] at hj
    have hgd : g.get_successors.getD i "" = g.get_successors.getD j "" := by
      rw [List.getD_eq_getElem _ _ hi, List.getD_eq_getElem _ _ hj]
      simpa [List.get_eq_getElem] using hab
    rw [hformula i hi2, hformula j hj2] at hgd
    exact Fin.ext (hidx_inj i j hi2 hj2
      (nodup_getD_inj g.nodes hnodesnd _ _ (hidx_lt i) (hidx_lt j) hgd))
  have hmem_peers : ∀ x ∈ g.get_successors, x ∈ peers := by
    intro x hx
    obtain ⟨⟨i, hi⟩, hget⟩ := List.mem_iff_get.mp hx
    have hi2 : i < ns := by rwa [hslen] at hi
    have hval : x = g.nodes.getD ((g.my_idx + 1 + i) % g.nodes.length) "" := by
      rw [← hformula i hi2, List.getD_eq_getElem _ _ hi]
      simpa [List.get_eq_getElem] using hget.symm
    have hxin : x ∈ g.nodes := by
      rw [hval, List.getD_eq_getElem _ _ (hidx_lt i)]
      exact List.getElem_mem (hidx_lt i)
    rcases List.mem_append.mp (hperm.subset hxin) with h | h
    · exact h
    · exact absurd ((List.mem_singleton.mp h) ▸ hx) hnotmem
  exact ⟨by rw [hslen], hnd_s, hnotmem, hmem_peers,
    fun i hi => hformula i (by rwa [hslen] at hi)⟩

/-- C7 amended witness. -/
theorem graphbuilder_successors_witness :
    ((["p1", "p2", "p3"] : List String) ≠ [] ∧
     "self" ∉ (["p1", "p2", "p3"] : List String) ∧
     (["p1", "p2", "p3"] : List String).Nodup) ∧
    (GraphBuilder.prep "self" 2 ["p1", "p2", "p3"]).get_successors.length
      = min 2 (["p1", "p2", "p3"] : List String).length ∧
    (GraphBuilder.prep "self" 2 ["p1", "p2", "p3"]).get_successors.Nodup ∧
    "self" ∉ (GraphBuilder.prep "self" 2 ["p1", "p2", "p3"]).get_successors := by
  have h := graphbuilder_successors "self" 2 ["p1", "p2", "p3"]
    (by decide) (by decide) (by decide)
  exact ⟨⟨by decide, by decide, by decide⟩, h.1, h.2.1, h.2.2.1⟩

/-- C7 counterexample: with the duplicate-containing peer list
`["a", "a"]` and `min_successors = 2`, the selection is `["a", "a"]` —
only one distinct peer, not `min(min_successors, |peers|) = 2` distinct
peers as the claim requires of every non-empty peer list. -/
theorem successors_duplicate_peers :
    (GraphBuilder.prep "b" 2 ["a", "a"]).get_successors = ["a", "a"] ∧
    (GraphBuilder.prep "b" 2 ["a", "a"]).get_successors.dedup.length = 1 ∧
    min 2 (["a", "a"] : List String).length = 2 := by
  decide

end Evio
